import Mathlib

/-!
Verification of the DNS lookup / subdomain scanner page of VR-CyberGaurd
(`src/pages/DNSLookup.tsx`), shallowly embedded in Lean.

The page keeps two pieces of state (`results`, `subdomainResults`) and
exposes four operations: `performDNSLookup`, `findSubdomains`,
`exportResults`, `exportSubdomainResults`.  Nondeterminism
(`Math.random()`) is made explicit: the 50% CNAME coin of the DNS lookup
becomes a `Bool` argument, and `Math.floor(Math.random() * 6)` of the
subdomain scan becomes a `Fin 6` argument.  Timestamps
(`new Date().toISOString()`) become `String` arguments.  A rejected input
(early `return` after an error toast) is modelled as `none`.
-/

namespace VRCyberGuard

/-- Mirrors `interface DNSRecord -- type: string; value: string; ttl?: number`. -/
structure DNSRecord where
  type : String
  value : String
  ttl : Option Nat
deriving Repr, DecidableEq

/-- The six keys of the `records` object literal in `DNSResults`. -/
inductive RecordType where
  | A | AAAA | MX | NS | CNAME | TXT
deriving Repr, DecidableEq, BEq

/-- Mirrors `interface DNSResults`; the `records` object is modelled as an ordered
association list so that which keys are present (and in what order) is
part of the value, as it is for a JS object literal. -/
structure DNSResults where
  domain : String
  timestamp : String
  records : List (RecordType × List DNSRecord)
deriving Repr, DecidableEq

/-- One element of `SubdomainResult.subdomains`. -/
structure SubdomainEntry where
  subdomain : String
  ip : String
  status : String
  services : List String
  lastChecked : String
deriving Repr, DecidableEq

/-- Mirrors `interface SubdomainResult`. -/
structure SubdomainResult where
  domain : String
  subdomains : List SubdomainEntry
  totalFound : Nat
deriving Repr, DecidableEq

/-- The blank-input check `!domain.trim()`: `trim` removes leading and
trailing whitespace, so the trimmed string is empty exactly when every
character is whitespace.  (`String.trim` itself is not kernel-reducible,
so the condition is embedded in this equivalent executable form.) -/
def trimmedEmpty (s : String) : Bool :=
  s.data.all fun c => c.isWhitespace

/-- Character class `[a-zA-Z0-9.-]` of the domain regex. -/
def isDomainChar (c : Char) : Bool :=
  c.isAlphanum || c == '.' || c == '-'

/-- Test of the anchored JS regex `/^[a-zA-Z0-9.-]+\.[a-zA-Z]{2,}$/`:
the string splits as `u ++ "." ++ v` with `u` nonempty over
`[a-zA-Z0-9.-]` and `v` of length ≥ 2 over `[a-zA-Z]`.  `i` ranges over
the position of the separating dot. -/
def domainRegexTest (s : String) : Bool :=
  (List.range s.data.length).any fun i =>
    decide (1 ≤ i) && (s.data.getD i ' ' == '.')
      && decide (i + 3 ≤ s.data.length)
      && (s.data.take i).all isDomainChar
      && ((s.data.drop (i + 1)).all fun c => c.isAlpha)

/-- The `mockResults.records` object literal of `performDNSLookup`,
after the 50%-chance `CNAME.push` (`cname` is the outcome of
`Math.random() > 0.5`). -/
def mockRecords (cname : Bool) : List (RecordType × List DNSRecord) :=
  [ (RecordType.A,
      [⟨"A", "93.184.216.34", some 3600⟩, ⟨"A", "93.184.216.35", some 3600⟩]),
    (RecordType.AAAA,
      [⟨"AAAA", "2606:2800:220:1:248:1893:25c8:1946", some 3600⟩]),
    (RecordType.MX,
      [⟨"MX", "10 mail.example.com", some 3600⟩,
       ⟨"MX", "20 mail2.example.com", some 3600⟩]),
    (RecordType.NS,
      [⟨"NS", "ns1.example.com", some 86400⟩,
       ⟨"NS", "ns2.example.com", some 86400⟩]),
    (RecordType.CNAME,
      if cname then [⟨"CNAME", "alias.example.com", some 3600⟩] else []),
    (RecordType.TXT,
      [⟨"TXT", "v=spf1 include:_spf.google.com ~all", some 3600⟩,
       ⟨"TXT", "google-site-verification=abc123def456", some 3600⟩]) ]

/-- The function `performDNSLookup`: empty/whitespace input and regex failure are the
two early returns (`none`); otherwise the mock result is produced.
`coin` is `Math.random() > 0.5`, `ts` the current timestamp. -/
def performDNSLookup (domain : String) (coin : Bool) (ts : String) :
    Option DNSResults :=
  if trimmedEmpty domain = true then none
  else if domainRegexTest domain = false then none
  else some { domain := domain, timestamp := ts, records := mockRecords coin }

/-- The effect of one `performDNSLookup` call on the `results` state slot:
`setResults` runs only on success, so a rejected input leaves it alone. -/
def dnsLookupStep (prev : Option DNSResults) (domain : String) (coin : Bool)
    (ts : String) : Option DNSResults :=
  match performDNSLookup domain coin ts with
  | none => prev
  | some r => some r

/-- The `mockSubdomains` array of `findSubdomains` (template literals
`` `www.${subdomainDomain}` `` etc.). -/
def mockSubdomains (d ts : String) : List SubdomainEntry :=
  [ ⟨"www." ++ d, "192.168.1.1", "active", ["HTTP", "HTTPS"], ts⟩,
    ⟨"mail." ++ d, "192.168.1.2", "active", ["SMTP", "IMAP"], ts⟩,
    ⟨"ftp." ++ d, "192.168.1.3", "inactive", ["FTP"], ts⟩,
    ⟨"api." ++ d, "192.168.1.4", "active", ["HTTPS", "API"], ts⟩,
    ⟨"blog." ++ d, "192.168.1.5", "active", ["HTTP"], ts⟩,
    ⟨"dev." ++ d, "192.168.1.6", "active", ["HTTP"], ts⟩,
    ⟨"staging." ++ d, "192.168.1.7", "active", ["HTTPS"], ts⟩,
    ⟨"cdn." ++ d, "192.168.1.8", "active", ["HTTP", "HTTPS"], ts⟩ ]

/-- The function `findSubdomains`: rejects blank input, else slices the mock array to
`Math.floor(Math.random() * 6) + 4` elements (`r` is the floor value,
in `[0, 6)`) and sets `totalFound` to the slice length. -/
def findSubdomains (domain : String) (r : Fin 6) (ts : String) :
    Option SubdomainResult :=
  if trimmedEmpty domain = true then none
  else
    let found := (mockSubdomains domain ts).take (r.val + 4)
    some { domain := domain, subdomains := found, totalFound := found.length }

/-- The export object of `exportResults`: spread of `results` plus
`userAgent` and `toolInfo`. -/
structure DNSExport where
  domain : String
  timestamp : String
  records : List (RecordType × List DNSRecord)
  userAgent : String
  toolInfo : String
deriving Repr, DecidableEq

/-- The function `exportResults` (the data construction; blob/download plumbing is UI). -/
def exportResults (r : DNSResults) (userAgent : String) : DNSExport :=
  { domain := r.domain, timestamp := r.timestamp, records := r.records,
    userAgent := userAgent, toolInfo := "VRCyber Guard DNS Lookup Tool" }

/-- The export object of `exportSubdomainResults`. -/
structure SubdomainExport where
  domain : String
  subdomains : List SubdomainEntry
  totalFound : Nat
  userAgent : String
  toolInfo : String
deriving Repr, DecidableEq

/-- The function `exportSubdomainResults` (the data construction). -/
def exportSubdomainResults (r : SubdomainResult) (userAgent : String) :
    SubdomainExport :=
  { domain := r.domain, subdomains := r.subdomains, totalFound := r.totalFound,
    userAgent := userAgent,
    toolInfo := "VR-Cyber-Guard DNS Lookup Tool - Subdomain Scanner" }

/-- The wordlist implicit in `mockSubdomains`. -/
def subdomainWordlist : List String :=
  ["www", "mail", "ftp", "api", "blog", "dev", "staging", "cdn"]

/-- Candidate fqdns: each label joined to the domain with a dot. -/
def candidateFqdns (d : String) : List String :=
  subdomainWordlist.map fun l => l ++ "." ++ d

/-- Lexicographic comparison of character lists (`a ≤ b`). -/
def charListLe : List Char → List Char → Bool
  | [], _ => true
  | _ :: _, [] => false
  | a :: as, b :: bs =>
      if a < b then true else if a = b then charListLe as bs else false

/-- A list of subdomain entries sorted lexicographically by fqdn. -/
def sortedByFqdn (l : List SubdomainEntry) : Prop :=
  l.Pairwise fun x y => charListLe x.subdomain.data y.subdomain.data = true

/- ### Helper lemmas -/

lemma performDNSLookup_some {d : String} {c : Bool} {t : String}
    {res : DNSResults} (h : performDNSLookup d c t = some res) :
    res = { domain := d, timestamp := t, records := mockRecords c } := by
  unfold performDNSLookup at h
  by_cases hb : trimmedEmpty d = true <;> simp [hb] at h
  by_cases hr : domainRegexTest d = false <;> simp [hr] at h
  exact h.symm

lemma findSubdomains_some {d : String} {r : Fin 6} {t : String}
    {res : SubdomainResult} (h : findSubdomains d r t = some res) :
    res.subdomains = (mockSubdomains d t).take (r.val + 4) ∧
      res.totalFound = res.subdomains.length := by
  unfold findSubdomains at h
  by_cases hb : trimmedEmpty d = true <;> simp [hb] at h
  rw [← h]
  simp

lemma take_add_four {α : Type} (m : Nat) (a b c e : α) (l : List α) :
    (a :: b :: c :: e :: l).take (m + 4) = a :: b :: c :: e :: l.take m := by
  simp [List.take_succ_cons]

lemma mock_fqdns_nodup (d t : String) :
    ((mockSubdomains d t).map fun e => e.subdomain).Nodup := by
  have h : (((mockSubdomains d t).map fun e => e.subdomain).map
      fun s => s.data.head?).Nodup := by
    show ([some 'w', some 'm', some 'f', some 'a', some 'b', some 'd',
      some 's', some 'c'] : List (Option Char)).Nodup
    decide
  exact List.Nodup.of_map _ h

lemma mock_fqdns_eq (d t : String) :
    ((mockSubdomains d t).map fun e => e.subdomain) = candidateFqdns d := rfl

/- ### Claim theorems -/

/-- C1: determinism of the DNS lookup — for a fixed domain and a fixed
outcome of the mock randomness, two invocations (at possibly different
timestamps) produce results with identical `records` content. -/
theorem dns_lookup_deterministic (d : String) (c : Bool) (t1 t2 : String)
    (r1 r2 : DNSResults) (h1 : performDNSLookup d c t1 = some r1)
    (h2 : performDNSLookup d c t2 = some r2) : r1.records = r2.records := by
  rw [performDNSLookup_some h1, performDNSLookup_some h2]

/-- C1 witness: the determinism theorem applied to `example.com`. -/
theorem dns_lookup_deterministic_witness :
    ({ domain := "example.com", timestamp := "T1",
        records := mockRecords true } : DNSResults).records =
      ({ domain := "example.com", timestamp := "T2",
          records := mockRecords true } : DNSResults).records :=
  dns_lookup_deterministic "example.com" true "T1" "T2" _ _ rfl rfl

/-- C2 counterexample: the scan output for `example.com` (random draw 0,
i.e. four entries) is not sorted lexicographically by fqdn —
`www.example.com` precedes `mail.example.com`. -/
theorem scan_sorted_counterexample :
    ∃ res, findSubdomains "example.com" 0 "T" = some res ∧
      ¬ sortedByFqdn res.subdomains :=
  ⟨_, rfl, by unfold sortedByFqdn; decide⟩

/-- C2 amended: the subdomains sequence is not sorted by fqdn; it is
emitted in the fixed wordlist order www, mail, ftp, api, blog, dev,
staging, cdn — the initial segment of length `r + 4` of the candidate
fqdn list. -/
theorem scan_output_wordlist_order (d : String) (r : Fin 6) (t : String)
    (res : SubdomainResult) (h : findSubdomains d r t = some res) :
    (res.subdomains.map fun e => e.subdomain) =
      (candidateFqdns d).take (r.val + 4) := by
  rw [(findSubdomains_some h).1, List.map_take, mock_fqdns_eq]

/-- C2 witness: the wordlist-order theorem applied to `example.com`
with random draw 0. -/
theorem scan_output_wordlist_order_witness :
    ∃ res, findSubdomains "example.com" 0 "T" = some res ∧
      (res.subdomains.map fun e => e.subdomain) =
        (candidateFqdns "example.com").take 4 :=
  ⟨_, rfl, scan_output_wordlist_order "example.com" 0 "T" _ rfl⟩

/-- C3 counterexample: for `example.com` the A entry of the produced
records holds two records, not the single record the claim states. -/
theorem dns_concrete_scenario_counterexample :
    ∃ res, performDNSLookup "example.com" false "T" = some res ∧
      (res.records.lookup RecordType.A).getD [] ≠
        [⟨"A", "93.184.216.34", some 3600⟩] :=
  ⟨_, rfl, by decide⟩

/-- C3 amended: for input domain `example.com` (CNAME coin false), the
lookup returns exactly A = [93.184.216.34, 93.184.216.35] (ttl 3600),
AAAA = [2606:2800:220:1:248:1893:25c8:1946] (ttl 3600),
MX = ["10 mail.example.com", "20 mail2.example.com"] (ttl 3600),
NS = [ns1.example.com, ns2.example.com] (ttl 86400), CNAME = [],
TXT = ["v=spf1 include:_spf.google.com ~all",
"google-site-verification=abc123def456"] (ttl 3600), with no rejection. -/
theorem dns_concrete_scenario (t : String) :
    performDNSLookup "example.com" false t =
      some { domain := "example.com", timestamp := t,
             records := [
               (RecordType.A,
                 [⟨"A", "93.184.216.34", some 3600⟩,
                  ⟨"A", "93.184.216.35", some 3600⟩]),
               (RecordType.AAAA,
                 [⟨"AAAA", "2606:2800:220:1:248:1893:25c8:1946", some 3600⟩]),
               (RecordType.MX,
                 [⟨"MX", "10 mail.example.com", some 3600⟩,
                  ⟨"MX", "20 mail2.example.com", some 3600⟩]),
               (RecordType.NS,
                 [⟨"NS", "ns1.example.com", some 86400⟩,
                  ⟨"NS", "ns2.example.com", some 86400⟩]),
               (RecordType.CNAME, []),
               (RecordType.TXT,
                 [⟨"TXT", "v=spf1 include:_spf.google.com ~all", some 3600⟩,
                  ⟨"TXT", "google-site-verification=abc123def456",
                   some 3600⟩]) ] } :=
  rfl

/-- C4: six-key completeness — whenever the DNS lookup produces a result,
its records mapping has exactly the keys A, AAAA, MX, NS, CNAME, TXT in
that order, regardless of the randomness outcome. -/
theorem dns_six_key_completeness (d : String) (c : Bool) (t : String)
    (res : DNSResults) (h : performDNSLookup d c t = some res) :
    res.records.map Prod.fst =
      [RecordType.A, RecordType.AAAA, RecordType.MX, RecordType.NS,
       RecordType.CNAME, RecordType.TXT] := by
  rw [performDNSLookup_some h]
  cases c <;> rfl

/-- C4 witness: six-key completeness at `example.com`. -/
theorem dns_six_key_completeness_witness :
    ({ domain := "example.com", timestamp := "T",
        records := mockRecords true } : DNSResults).records.map Prod.fst =
      [RecordType.A, RecordType.AAAA, RecordType.MX, RecordType.NS,
       RecordType.CNAME, RecordType.TXT] :=
  dns_six_key_completeness "example.com" true "T" _ rfl

/-- C5: whenever the subdomain scan produces a result, `totalFound`
equals the length of the `subdomains` sequence, and the emitted fqdns
are pairwise distinct. -/
theorem scan_count_and_distinct (d : String) (r : Fin 6) (t : String)
    (res : SubdomainResult) (h : findSubdomains d r t = some res) :
    res.totalFound = res.subdomains.length ∧
      (res.subdomains.map fun e => e.subdomain).Nodup := by
  obtain ⟨hsub, hcount⟩ := findSubdomains_some h
  refine ⟨hcount, ?_⟩
  rw [hsub, List.map_take]
  exact List.Nodup.sublist (List.take_sublist _ _) (mock_fqdns_nodup d t)

/-- C5 witness: the count/distinctness theorem at `example.com`,
random draw 2. -/
theorem scan_count_and_distinct_witness :
    ∃ res, findSubdomains "example.com" 2 "T" = some res ∧
      (res.totalFound = res.subdomains.length ∧
        (res.subdomains.map fun e => e.subdomain).Nodup) :=
  ⟨_, rfl, scan_count_and_distinct "example.com" 2 "T" _ rfl⟩

/-- C6 counterexample: no outcome of the random draw makes the scan of
`example.com` report 9 subdomains — `slice(0, n)` of the 8-element mock
array caps the count at 8, so the stated range 4..9 is not all
attainable. -/
theorem scan_count_nine_unattainable :
    ¬ ∃ r : Fin 6, (findSubdomains "example.com" r "T").map
        (fun res => res.totalFound) = some 9 := by
  decide

/-- C6 amended: for every input domain that is not all-whitespace, the
scan result count lies between 4 and 8 inclusive, and every count in
that range is attained by some outcome of the random draw. -/
theorem scan_count_range (d t : String) (hd : trimmedEmpty d = false) :
    (∀ r : Fin 6, ∀ res : SubdomainResult, findSubdomains d r t = some res →
        4 ≤ res.totalFound ∧ res.totalFound ≤ 8) ∧
    (∀ k : Nat, 4 ≤ k → k ≤ 8 →
        ∃ r : Fin 6, ∃ res : SubdomainResult,
          findSubdomains d r t = some res ∧ res.totalFound = k) := by
  have hlen : (mockSubdomains d t).length = 8 := rfl
  constructor
  · intro r res h
    obtain ⟨hsub, hcount⟩ := findSubdomains_some h
    rw [hcount, hsub, List.length_take, hlen]
    omega
  · intro k hk1 hk2
    have hr : k - 4 < 6 := by omega
    have hfs : findSubdomains d ⟨k - 4, hr⟩ t =
        some { domain := d,
               subdomains := (mockSubdomains d t).take (k - 4 + 4),
               totalFound :=
                 ((mockSubdomains d t).take (k - 4 + 4)).length } := by
      unfold findSubdomains
      rw [hd]
      rfl
    refine ⟨⟨k - 4, hr⟩, _, hfs, ?_⟩
    show ((mockSubdomains d t).take (k - 4 + 4)).length = k
    rw [List.length_take, hlen]
    omega

/-- C6 witness: the count-range theorem applied to `example.com`. -/
theorem scan_count_range_witness :
    (∀ r : Fin 6, ∀ res : SubdomainResult,
        findSubdomains "example.com" r "T" = some res →
          4 ≤ res.totalFound ∧ res.totalFound ≤ 8) ∧
    (∀ k : Nat, 4 ≤ k → k ≤ 8 →
        ∃ r : Fin 6, ∃ res : SubdomainResult,
          findSubdomains "example.com" r "T" = some res ∧
            res.totalFound = k) :=
  scan_count_range "example.com" "T" rfl

/-- C7: an input that is blank or fails the domain regex is rejected —
the lookup produces no result and the stored `results` state is left
unchanged. -/
theorem invalid_input_rejected (prev : Option DNSResults) (s : String)
    (c : Bool) (t : String)
    (h : trimmedEmpty s = true ∨ domainRegexTest s = false) :
    performDNSLookup s c t = none ∧ dnsLookupStep prev s c t = prev := by
  have hnone : performDNSLookup s c t = none := by
    rcases h with h | h
    · simp [performDNSLookup, h]
    · by_cases hb : trimmedEmpty s = true <;>
        simp [performDNSLookup, hb, h]
  refine ⟨hnone, ?_⟩
  unfold dnsLookupStep
  rw [hnone]

/-- C7 witness: the rejection theorem at the dotless input `abc`, with a
previous result in the state slot. -/
theorem invalid_input_rejected_witness :
    performDNSLookup "abc" true "T" = none ∧
      dnsLookupStep
        (some { domain := "x.co", timestamp := "y",
                records := mockRecords false }) "abc" true "T" =
        some { domain := "x.co", timestamp := "y",
               records := mockRecords false } :=
  invalid_input_rejected _ "abc" true "T" (Or.inr rfl)

/-- C8: export framing — the export object carries the result's own
fields (`domain`, `timestamp`, `records` for the DNS lookup; `domain`,
`subdomains`, `totalFound` for the scan) unchanged, extended only with
`userAgent` and the fixed `toolInfo` string. -/
theorem export_frame (res : DNSResults) (sres : SubdomainResult)
    (ua : String) :
    (exportResults res ua).domain = res.domain ∧
    (exportResults res ua).timestamp = res.timestamp ∧
    (exportResults res ua).records = res.records ∧
    (exportResults res ua).userAgent = ua ∧
    (exportResults res ua).toolInfo = "VRCyber Guard DNS Lookup Tool" ∧
    (exportSubdomainResults sres ua).domain = sres.domain ∧
    (exportSubdomainResults sres ua).subdomains = sres.subdomains ∧
    (exportSubdomainResults sres ua).totalFound = sres.totalFound ∧
    (exportSubdomainResults sres ua).userAgent = ua ∧
    (exportSubdomainResults sres ua).toolInfo =
      "VR-Cyber-Guard DNS Lookup Tool - Subdomain Scanner" :=
  ⟨rfl, rfl, rfl, rfl, rfl, rfl, rfl, rfl, rfl, rfl⟩

lemma candidateFqdns_take (d : String) (m : Nat) :
    (candidateFqdns d).take (m + 4) =
      ("www." ++ d) :: ("mail." ++ d) :: ("ftp." ++ d) :: ("api." ++ d) ::
        (["blog." ++ d, "dev." ++ d, "staging." ++ d, "cdn." ++ d].take m) :=
  take_add_four m _ _ _ _ _

lemma mockSubdomains_take (d t : String) (m : Nat) :
    (mockSubdomains d t).take (m + 4) =
      ⟨"www." ++ d, "192.168.1.1", "active", ["HTTP", "HTTPS"], t⟩ ::
      ⟨"mail." ++ d, "192.168.1.2", "active", ["SMTP", "IMAP"], t⟩ ::
      ⟨"ftp." ++ d, "192.168.1.3", "inactive", ["FTP"], t⟩ ::
      ⟨"api." ++ d, "192.168.1.4", "active", ["HTTPS", "API"], t⟩ ::
      ([⟨"blog." ++ d, "192.168.1.5", "active", ["HTTP"], t⟩,
        ⟨"dev." ++ d, "192.168.1.6", "active", ["HTTP"], t⟩,
        ⟨"staging." ++ d, "192.168.1.7", "active", ["HTTPS"], t⟩,
        ⟨"cdn." ++ d, "192.168.1.8", "active", ["HTTP", "HTTPS"], t⟩].take m) :=
  take_add_four m _ _ _ _ _

/-- C9: the scan output fqdns are the initial segment of the fixed
candidate list; `www`, `mail`, `ftp` and `api` joined to the domain
are always present, and every emitted fqdn is one of the eight
candidates joined to the domain with a dot. -/
theorem scan_fixed_candidates (d : String) (r : Fin 6) (t : String)
    (res : SubdomainResult) (h : findSubdomains d r t = some res) :
    (res.subdomains.map fun e => e.subdomain) =
        (candidateFqdns d).take (r.val + 4) ∧
      "www." ++ d ∈ (res.subdomains.map fun e => e.subdomain) ∧
      "mail." ++ d ∈ (res.subdomains.map fun e => e.subdomain) ∧
      "ftp." ++ d ∈ (res.subdomains.map fun e => e.subdomain) ∧
      "api." ++ d ∈ (res.subdomains.map fun e => e.subdomain) ∧
      ∀ e ∈ res.subdomains, e.subdomain ∈ candidateFqdns d := by
  obtain ⟨hsub, -⟩ := findSubdomains_some h
  have horder : (res.subdomains.map fun e => e.subdomain) =
      (candidateFqdns d).take (r.val + 4) := by
    rw [hsub, List.map_take, mock_fqdns_eq]
  refine ⟨horder, ?_, ?_, ?_, ?_, ?_⟩
  · rw [horder, candidateFqdns_take]; simp
  · rw [horder, candidateFqdns_take]; simp
  · rw [horder, candidateFqdns_take]; simp
  · rw [horder, candidateFqdns_take]; simp
  · intro e he
    have h1 : e.subdomain ∈ (res.subdomains.map fun x => x.subdomain) :=
      List.mem_map_of_mem _ he
    rw [horder] at h1
    exact List.take_subset _ _ h1

/-- C9 witness: the fixed-candidates theorem at `example.com`,
random draw 1. -/
theorem scan_fixed_candidates_witness :
    ∃ res, findSubdomains "example.com" 1 "T" = some res ∧
      ((res.subdomains.map fun e => e.subdomain) =
          (candidateFqdns "example.com").take 5 ∧
        "www." ++ "example.com" ∈
          (res.subdomains.map fun e => e.subdomain) ∧
        "mail." ++ "example.com" ∈
          (res.subdomains.map fun e => e.subdomain) ∧
        "ftp." ++ "example.com" ∈
          (res.subdomains.map fun e => e.subdomain) ∧
        "api." ++ "example.com" ∈
          (res.subdomains.map fun e => e.subdomain) ∧
        ∀ e ∈ res.subdomains,
          e.subdomain ∈ candidateFqdns "example.com") :=
  ⟨_, rfl, scan_fixed_candidates "example.com" 1 "T" _ rfl⟩

/-- C10: every emitted subdomain entry has a non-empty services list and
a non-empty ip, and the scan always emits the inactive `ftp` entry whose
services list is exactly `["FTP"]`. -/
theorem scan_entries_wellformed (d : String) (r : Fin 6) (t : String)
    (res : SubdomainResult) (h : findSubdomains d r t = some res) :
    (∀ e ∈ res.subdomains, e.services ≠ [] ∧ e.ip ≠ "") ∧
    (∃ e ∈ res.subdomains, e.status = "inactive" ∧ e.services = ["FTP"] ∧
        e.subdomain = "ftp." ++ d) := by
  obtain ⟨hsub, -⟩ := findSubdomains_some h
  constructor
  · intro e he
    rw [hsub] at he
    have hm : e ∈ mockSubdomains d t := (List.take_sublist _ _).subset he
    simp only [mockSubdomains, List.mem_cons, List.not_mem_nil, or_false]
      at hm
    rcases hm with rfl | rfl | rfl | rfl | rfl | rfl | rfl | rfl <;>
      exact ⟨by simp, by simp⟩
  · refine ⟨⟨"ftp." ++ d, "192.168.1.3", "inactive", ["FTP"], t⟩,
      ?_, rfl, rfl, rfl⟩
    rw [hsub, mockSubdomains_take]
    simp

/-- C10 witness: the wellformedness theorem at `example.com`,
random draw 0. -/
theorem scan_entries_wellformed_witness :
    ∃ res, findSubdomains "example.com" 0 "T" = some res ∧
      ((∀ e ∈ res.subdomains, e.services ≠ [] ∧ e.ip ≠ "") ∧
        ∃ e ∈ res.subdomains, e.status = "inactive" ∧
          e.services = ["FTP"] ∧ e.subdomain = "ftp." ++ "example.com") :=
  ⟨_, rfl, scan_entries_wellformed "example.com" 0 "T" _ rfl⟩

end VRCyberGuard
